import Mathlib

/-!
Shallow embedding of the CLI metadata reader (crate `cli-toolkit`) and
verification of its stated properties.

Conventions used throughout:
* Rust byte buffers (`&[u8]`) are `List Nat`, each element a byte value.
* Machine integers are `Nat`; `% 2^32` is applied exactly where u32
  arithmetic can wrap in the source.
* Rust `Result<T, Error>` is `Except Error T`.
* Methods taking `&mut self` on `ByteStream` return a pair
  `Except Error α × ByteStream`: the returned stream is the state of the
  cursor after the call (unchanged on the error paths, exactly as in the
  source where the early `return Err(..)` happens before any mutation).
* Rust panics (slice-index out of bounds, `unimplemented!`) are modelled
  by `Option`/a dedicated constructor, since they abort rather than
  return.
* Error payloads are omitted: the snapshot of the source is inconsistent
  about them (`byte_stream.rs` declares `InvalidData(Option<&'static str>)`
  while `heaps.rs` constructs `InvalidData(offset, None)`), and no claim
  depends on a payload, only on the error kind.
-/

deriving instance DecidableEq for Except

/-- Error kinds of `cli-toolkit/src/raw/byte_stream.rs` (`enum Error`). -/
inductive Error where
  | UnalignedRead
  | OffsetOutOfBounds
  | UnexpectedEndOfStream
  | InvalidData
  deriving DecidableEq, Repr

/-- Byte cursor from `cli-toolkit/src/raw/byte_stream.rs` (`struct ByteStream`):
a borrowed buffer together with a position. -/
structure ByteStream where
  bytes : List Nat
  position : Nat
  deriving DecidableEq, Repr

namespace ByteStream

/-- `ByteStream::new`: cursor at position 0. -/
def new (bytes : List Nat) : ByteStream := ⟨bytes, 0⟩

/-- `ByteStream::seek` (byte_stream.rs lines 54-62): sets the position and
returns the previous one when `position < self.bytes.len()`, otherwise
fails with `OffsetOutOfBounds` leaving the cursor untouched. -/
def seek (s : ByteStream) (position : Nat) : Except Error Nat × ByteStream :=
  if position < s.bytes.length then
    (Except.ok s.position, { s with position := position })
  else
    (Except.error Error.OffsetOutOfBounds, s)

/-- `ByteStream::skip` (byte_stream.rs lines 64-72). -/
def skip (s : ByteStream) (count : Nat) : Except Error Nat × ByteStream :=
  if s.position + count > s.bytes.length then
    (Except.error Error.UnexpectedEndOfStream, s)
  else
    (Except.ok s.position, { s with position := s.position + count })

/-- Value of the byte at index `i`; the source reads through a raw pointer
that is in bounds whenever the guarding length check passed. -/
def byteAt (bytes : List Nat) (i : Nat) : Nat := bytes.getD i 0

/-- `ByteStream::read::<u8>` (byte_stream.rs lines 74-85 at `T = u8`). -/
def read_u8 (s : ByteStream) : Except Error Nat × ByteStream :=
  if s.position + 1 > s.bytes.length then
    (Except.error Error.UnexpectedEndOfStream, s)
  else
    (Except.ok (byteAt s.bytes s.position), { s with position := s.position + 1 })

/-- `ByteStream::read::<u16>`: unaligned little-endian read of two bytes. -/
def read_u16 (s : ByteStream) : Except Error Nat × ByteStream :=
  if s.position + 2 > s.bytes.length then
    (Except.error Error.UnexpectedEndOfStream, s)
  else
    (Except.ok (byteAt s.bytes s.position + 256 * byteAt s.bytes (s.position + 1)),
     { s with position := s.position + 2 })

/-- `ByteStream::read::<u32>`: unaligned little-endian read of four bytes. -/
def read_u32 (s : ByteStream) : Except Error Nat × ByteStream :=
  if s.position + 4 > s.bytes.length then
    (Except.error Error.UnexpectedEndOfStream, s)
  else
    (Except.ok (byteAt s.bytes s.position
        + 256 * byteAt s.bytes (s.position + 1)
        + 65536 * byteAt s.bytes (s.position + 2)
        + 16777216 * byteAt s.bytes (s.position + 3)),
     { s with position := s.position + 4 })

/-- `ByteStream::read_slice::<u8>` (byte_stream.rs lines 117-133 at `T = u8`):
the length check is `position + size_of::<T>() * count > len` with
`size_of::<u8>() = 1`; the alignment branch can never fire for `u8`
(`align_of::<u8>() = 1`, so `align_offset` is 0). On success the borrowed
view is `bytes[position .. position + count]` and the position advances;
on failure the cursor is untouched. -/
def read_slice_u8 (s : ByteStream) (count : Nat) : Except Error (List Nat) × ByteStream :=
  if s.position + count > s.bytes.length then
    (Except.error Error.UnexpectedEndOfStream, s)
  else
    (Except.ok ((s.bytes.drop s.position).take count),
     { s with position := s.position + count })

/-- `ByteStream::read_checked` at `T = u32` (byte_stream.rs lines 87-97, as
invoked by the `FromByteStream` derive): read the value, then test the
predicate; a failing predicate yields `InvalidData`. -/
def read_checked_u32 (s : ByteStream) (check : Nat → Bool) : Except Error Nat × ByteStream :=
  match s.read_u32 with
  | (Except.error e, s') => (Except.error e, s')
  | (Except.ok v, s') =>
    if check v then (Except.ok v, s') else (Except.error Error.InvalidData, s')

/-- `ByteStream::read_checked` at `T = u16`. -/
def read_checked_u16 (s : ByteStream) (check : Nat → Bool) : Except Error Nat × ByteStream :=
  match s.read_u16 with
  | (Except.error e, s') => (Except.error e, s')
  | (Except.ok v, s') =>
    if check v then (Except.ok v, s') else (Except.error Error.InvalidData, s')

end ByteStream

/-- C5: the claim as frozen states that `seek(p)` succeeds whenever
`p ≤ len(buffer)` and fails exactly when `p > len(buffer)`, so in
particular `seek(len(buffer))` succeeds. The source (byte_stream.rs line
56) tests `position < self.bytes.len()` strictly, so `seek(len)` fails:
on the buffer `[42]` of length 1, `seek 1` returns `OffsetOutOfBounds`
instead of succeeding. -/
theorem seek_at_buffer_end_fails :
    ByteStream.seek ⟨[42], 0⟩ 1 = (Except.error Error.OffsetOutOfBounds, ⟨[42], 0⟩) := by
  decide

/-- C5 (amended): `seek(p)` succeeds, returns the previous position and sets
the position to `p` exactly when `p < len(buffer)`, and fails with
`OffsetOutOfBounds` leaving the cursor unchanged exactly when
`p ≥ len(buffer)`; in particular `seek(len(buffer))` fails. -/
theorem seek_succeeds_iff_strictly_inside (s : ByteStream) (p : Nat) :
    (p < s.bytes.length →
      s.seek p = (Except.ok s.position, { s with position := p }))
    ∧ (s.bytes.length ≤ p →
      s.seek p = (Except.error Error.OffsetOutOfBounds, s)) := by
  constructor
  · intro h
    simp [ByteStream.seek, h]
  · intro h
    simp [ByteStream.seek, Nat.not_lt.mpr h]

/-- C5 amended-claim witness: on the buffer `[42]`, `seek 0` succeeds and
`seek 1` (= `seek len`) fails. -/
theorem seek_succeeds_iff_strictly_inside_witness :
    ByteStream.seek ⟨[42], 0⟩ 0 = (Except.ok 0, ⟨[42], 0⟩)
    ∧ ByteStream.seek ⟨[42], 0⟩ 1 = (Except.error Error.OffsetOutOfBounds, ⟨[42], 0⟩) :=
  ⟨(seek_succeeds_iff_strictly_inside ⟨[42], 0⟩ 0).1 (by decide),
   (seek_succeeds_iff_strictly_inside ⟨[42], 0⟩ 1).2 (by decide)⟩

/-- C6: for every buffer `buf`, position `p` and count `n`: when
`p + n ≤ len(buf)`, `read_slice::<u8>(n)` succeeds, returns exactly
`buf[p .. p+n]` and advances the position to `p + n`; when
`p + n > len(buf)` it fails with `UnexpectedEndOfStream` and the cursor
position is unchanged. -/
theorem read_slice_bounds (bytes : List Nat) (p n : Nat) :
    (p + n ≤ bytes.length →
      ByteStream.read_slice_u8 ⟨bytes, p⟩ n
        = (Except.ok ((bytes.drop p).take n), ⟨bytes, p + n⟩))
    ∧ (bytes.length < p + n →
      ByteStream.read_slice_u8 ⟨bytes, p⟩ n
        = (Except.error Error.UnexpectedEndOfStream, ⟨bytes, p⟩)) := by
  constructor
  · intro h
    simp [ByteStream.read_slice_u8, Nat.not_lt.mpr h]
  · intro h
    simp [ByteStream.read_slice_u8, h]

/-- C6 witness: on the buffer `[1, 2, 3]` with position 1, reading 2 bytes
succeeds with `[2, 3]`, and reading 3 bytes fails without moving. -/
theorem read_slice_bounds_witness :
    ByteStream.read_slice_u8 ⟨[1, 2, 3], 1⟩ 2 = (Except.ok [2, 3], ⟨[1, 2, 3], 3⟩)
    ∧ ByteStream.read_slice_u8 ⟨[1, 2, 3], 1⟩ 3
        = (Except.error Error.UnexpectedEndOfStream, ⟨[1, 2, 3], 1⟩) :=
  ⟨(read_slice_bounds [1, 2, 3] 1 2).1 (by decide),
   (read_slice_bounds [1, 2, 3] 1 3).2 (by decide)⟩

/-!
Heap accessors, from `cli-toolkit/src/raw/metadata/heaps.rs`.
-/

namespace BlobHeap

/-- `BlobHeap::get_blob` (heaps.rs lines 94-115): seek to the index, decode
the variable-width length prefix from the first byte's high bits, then
return that many following bytes. The three length branches are exactly
the source's: `byte_0 & 0x80 == 0` (one byte), `byte_0 & 0xC0 == 0x80`
(one extra byte), `byte_0 & 0xE0 == 0xC0` (two extra bytes); any other
first byte (`0xE0 ..= 0xFF`) is `InvalidData`. -/
def get_blob (heapBytes : List Nat) (index : Nat) : Except Error (List Nat) :=
  match (ByteStream.new heapBytes).seek index with
  | (Except.error e, _) => Except.error e
  | (Except.ok _, r0) =>
    match r0.read_u8 with
    | (Except.error e, _) => Except.error e
    | (Except.ok byte_0, r1) =>
      if byte_0 &&& 0x80 = 0 then
        (r1.read_slice_u8 (byte_0 &&& 0x7F)).1
      else if byte_0 &&& 0xC0 = 0x80 then
        match r1.read_u8 with
        | (Except.error e, _) => Except.error e
        | (Except.ok byte_1, r2) =>
          (r2.read_slice_u8 (((byte_0 &&& 0x3F) <<< 8) + byte_1)).1
      else if byte_0 &&& 0xE0 = 0xC0 then
        match r1.read_u8 with
        | (Except.error e, _) => Except.error e
        | (Except.ok byte_1, r2) =>
          match r2.read_u8 with
          | (Except.error e, _) => Except.error e
          | (Except.ok byte_2, r3) =>
            (r3.read_slice_u8 (((byte_0 &&& 0x3F) <<< 16) + (byte_1 <<< 8) + byte_2)).1
      else
        Except.error Error.InvalidData

end BlobHeap

/-- C2: the claim (and ECMA-335 II.23.2) specify that a first byte of the
form `0b110_____` starts a 4-byte big-endian length, so the heap
`[0xC0, 0x00, 0x00, 0x01, 0xAA]` at index 0 encodes the length-1 blob
`[0xAA]`, and lengths up to `0x1FFFFFFF` are representable. The source
(heaps.rs lines 105-108) reads only two extra bytes for this prefix,
decoding the length `((0xC0 & 0x3F) << 16) + (0x00 << 8) + 0x00 = 0` here
and returning the empty blob; the largest length it can decode is
`0x1FFFFF`. This theorem evaluates the code at that failing input. -/
theorem blob_110_prefix_reads_three_bytes :
    BlobHeap.get_blob [0xC0, 0x00, 0x00, 0x01, 0xAA] 0 = Except.ok [] := by
  decide

namespace StringHeap

/-- `StringHeap::get_string` (heaps.rs lines 30-34): slices the heap from
the index (a Rust range-from slice, which panics when the index exceeds
the heap length — modelled by `none`), then cuts at the first NUL, taking
the whole remainder when no NUL follows. The function is infallible in
the source: it returns `&str` directly, not a `Result`. -/
def get_string (heapBytes : List Nat) (index : Nat) : Option (List Nat) :=
  if index ≤ heapBytes.length then
    some ((heapBytes.drop index).takeWhile (fun c => decide (c ≠ 0)))
  else
    none

end StringHeap

-- Theorems for C9 follow the table-dispatch section below, since the
-- claim also covers `TableHeap::row_size` and `TableHeap::get_table`.

/-!
AssemblyRef dependency decoding, from `cli-toolkit/src/read/assembly.rs`
(`AssemblyReader::read_assembly_refs`) over the raw row schema of
`cli-toolkit/src/raw/metadata/tables.rs` lines 631-646.
-/

/-- Raw `AssemblyRef` table row (tables.rs lines 631-646), fields in their
declared order; `public_key` and `hash_value` are blob-heap indices
(`hash_value` is the field declared last), `name` and `culture` are
string-heap indices. -/
structure AssemblyRefRow where
  major_version : Nat
  minor_version : Nat
  build_number : Nat
  revision_number : Nat
  flags : Nat
  public_key : Nat
  name : Nat
  culture : Nat
  hash_value : Nat
  deriving DecidableEq, Repr

/-- `schema::AssemblyVersion` as populated by `read_assembly_refs`. -/
structure AssemblyVersion where
  major : Nat
  minor : Nat
  build : Nat
  revision : Nat
  deriving DecidableEq, Repr

/-- Decoded dependency record `schema::AssemblyRef` (schema/assembly.rs
lines 109-117); `ident_key`, a formatted display string, is not modelled
since no claim mentions it. Strings are carried as byte lists. -/
structure AssemblyRefRecord where
  name : List Nat
  culture : List Nat
  version : AssemblyVersion
  flags : Nat
  public_key : List Nat
  hash_value : List Nat
  deriving DecidableEq, Repr

/-- Outcome of a Rust computation that can also abort: `panicked` models a
panic (here: the infallible `get_string` indexing out of bounds). -/
inductive RustOutcome (α : Type) where
  | panicked
  | err (e : Error)
  | ok (a : α)
  deriving DecidableEq, Repr

/-- Loop body of `AssemblyReader::read_assembly_refs` (read/assembly.rs
lines 126-154) for a single row: look up `name` and `culture` in the
string heap, then build the record; the source fills BOTH the
`public_key` and the `hash_value` fields from the blob at the row's
`public_key` index (lines 140-141) — the row's own `hash_value` index is
never consulted. -/
def read_assembly_ref (blobBytes stringBytes : List Nat) (row : AssemblyRefRow) :
    RustOutcome AssemblyRefRecord :=
  match StringHeap.get_string stringBytes row.name with
  | none => RustOutcome.panicked
  | some name =>
    match StringHeap.get_string stringBytes row.culture with
    | none => RustOutcome.panicked
    | some culture =>
      match BlobHeap.get_blob blobBytes row.public_key with
      | Except.error e => RustOutcome.err e
      | Except.ok pk =>
        match BlobHeap.get_blob blobBytes row.public_key with
        | Except.error e => RustOutcome.err e
        | Except.ok hv =>
          RustOutcome.ok
            { name := name
              culture := culture
              version :=
                { major := row.major_version
                  minor := row.minor_version
                  build := row.build_number
                  revision := row.revision_number }
              flags := row.flags
              public_key := pk
              hash_value := hv }

/-- C4: the claim states that the decoded dependency's `hash_value` equals
the blob at the row's own `hash_value` index. On the blob heap
`[0x01, 0xAA, 0x01, 0xBB]` (blob `[0xAA]` at index 0, blob `[0xBB]` at
index 2) with a row whose `public_key` index is 0 and whose `hash_value`
index is 2, the code produces `hash_value = [0xAA]` — the public-key
blob — while the blob at the row's `hash_value` index is `[0xBB]`. -/
theorem assembly_ref_hash_value_from_public_key :
    read_assembly_ref [0x01, 0xAA, 0x01, 0xBB] [0x00]
        { major_version := 1, minor_version := 0, build_number := 0,
          revision_number := 0, flags := 0, public_key := 0,
          name := 0, culture := 0, hash_value := 2 }
      = RustOutcome.ok
          { name := [], culture := [],
            version := { major := 1, minor := 0, build := 0, revision := 0 },
            flags := 0, public_key := [0xAA], hash_value := [0xAA] }
    ∧ BlobHeap.get_blob [0x01, 0xAA, 0x01, 0xBB] 2 = Except.ok [0xBB] := by
  decide

/-!
Metadata tokens and coded indices, from
`cli-toolkit/src/raw/metadata/indices.rs`.
-/

/-- `enum MetadataTokenKind` (indices.rs lines 59-96). -/
inductive MetadataTokenKind where
  | Module | TypeRef | TypeDef | Field | Method | Param | InterfaceImpl
  | MemberRef | CustomAttribute | Permission | Signature | Event | Property
  | ModuleRef | TypeSpec | Assembly | AssemblyRef | File | ExportedType
  | ManifestResource | GenericParam | MethodSpec | GenericParamConstraint
  | Document | MethodDebugInformation | LocalScope | LocalVariable
  | LocalConstant | ImportScope | StateMachineMethod | CustomDebugInformation
  | String
  deriving DecidableEq, Repr

/-- Discriminant values of `MetadataTokenKind` (its `repr(u32)` values). -/
def MetadataTokenKind.val : MetadataTokenKind → Nat
  | .Module => 0x00000000
  | .TypeRef => 0x01000000
  | .TypeDef => 0x02000000
  | .Field => 0x04000000
  | .Method => 0x06000000
  | .Param => 0x08000000
  | .InterfaceImpl => 0x09000000
  | .MemberRef => 0x0a000000
  | .CustomAttribute => 0x0c000000
  | .Permission => 0x0e000000
  | .Signature => 0x11000000
  | .Event => 0x14000000
  | .Property => 0x17000000
  | .ModuleRef => 0x1a000000
  | .TypeSpec => 0x1b000000
  | .Assembly => 0x20000000
  | .AssemblyRef => 0x23000000
  | .File => 0x26000000
  | .ExportedType => 0x27000000
  | .ManifestResource => 0x28000000
  | .GenericParam => 0x2a000000
  | .MethodSpec => 0x2b000000
  | .GenericParamConstraint => 0x2c000000
  | .Document => 0x30000000
  | .MethodDebugInformation => 0x31000000
  | .LocalScope => 0x32000000
  | .LocalVariable => 0x33000000
  | .LocalConstant => 0x34000000
  | .ImportScope => 0x35000000
  | .StateMachineMethod => 0x36000000
  | .CustomDebugInformation => 0x37000000
  | .String => 0x70000000

/-- `struct MetadataToken` (indices.rs line 21): a u32 value. -/
structure MetadataToken where
  val : Nat
  deriving DecidableEq, Repr

/-- `MetadataToken::new` (indices.rs lines 99-105): row index 0 of any kind
gives the single null token, otherwise the kind's tag byte is or-ed in. -/
def MetadataToken.new (index : Nat) (kind : MetadataTokenKind) : MetadataToken :=
  if index = 0 then ⟨0⟩ else ⟨index ||| kind.val⟩

/-- `MetadataToken::is_null` (indices.rs lines 107-109). -/
def MetadataToken.is_null (t : MetadataToken) : Bool := t.val == 0

/-- `enum CodedIndexKind` (indices.rs lines 41-57). -/
inductive CodedIndexKind where
  | TypeDefOrRef | HasConstant | HasCustomAttribute | HasFieldMarshal
  | HasDeclSecurity | MemberRefParent | HasSemantics | MethodDefOrRef
  | MemberForwarded | Implementation | CustomAttributeType | ResolutionScope
  | TypeOrMethodDef | HasCustomDebugInformation
  deriving DecidableEq, Repr

/-- Tag-bit count used by `CodedIndex::decode`, read off the literal shift
and mask in each of its arms. -/
def CodedIndexKind.bits : CodedIndexKind → Nat
  | .TypeDefOrRef => 2
  | .HasConstant => 2
  | .HasCustomAttribute => 5
  | .HasFieldMarshal => 1
  | .HasDeclSecurity => 2
  | .MemberRefParent => 3
  | .HasSemantics => 1
  | .MethodDefOrRef => 1
  | .MemberForwarded => 1
  | .Implementation => 2
  | .CustomAttributeType => 3
  | .ResolutionScope => 2
  | .TypeOrMethodDef => 1
  | .HasCustomDebugInformation => 5

namespace CodedIndex

/-- `CodedIndex::decode` (indices.rs lines 220-400) on the raw u32 value
`v`: split `v` into row (upper bits) and tag (low bits), select the token
kind from the per-kind array by the tag (`None` past its end), and build
the token with `MetadataToken::new`. The arrays are transcribed verbatim:
the `HasCustomAttribute` arm lists 21 kinds (lines 246-268) and the
`HasCustomDebugInformation` arm 26 (lines 366-393) — both omit
`AssemblyRef` between `Assembly` and `File`, unlike `encode` below. -/
def decode (v : Nat) (kind : CodedIndexKind) : Option MetadataToken :=
  match kind with
  | .TypeDefOrRef =>
    ([MetadataTokenKind.TypeDef, .TypeRef, .TypeSpec].get? (v &&& 3)).map
      (fun k => MetadataToken.new (v >>> 2) k)
  | .HasConstant =>
    ([MetadataTokenKind.Field, .Param, .Property].get? (v &&& 3)).map
      (fun k => MetadataToken.new (v >>> 2) k)
  | .HasCustomAttribute =>
    ([MetadataTokenKind.Method, .Field, .TypeRef, .TypeDef, .Param,
      .InterfaceImpl, .MemberRef, .Module, .Permission, .Property, .Event,
      .Signature, .ModuleRef, .TypeSpec, .Assembly, .File, .ExportedType,
      .ManifestResource, .GenericParam, .GenericParamConstraint,
      .MethodSpec].get? (v &&& 31)).map
      (fun k => MetadataToken.new (v >>> 5) k)
  | .HasFieldMarshal =>
    ([MetadataTokenKind.Field, .Param].get? (v &&& 1)).map
      (fun k => MetadataToken.new (v >>> 1) k)
  | .HasDeclSecurity =>
    ([MetadataTokenKind.TypeDef, .Method, .Assembly].get? (v &&& 3)).map
      (fun k => MetadataToken.new (v >>> 2) k)
  | .MemberRefParent =>
    ([MetadataTokenKind.TypeDef, .TypeRef, .ModuleRef, .Method,
      .TypeSpec].get? (v &&& 7)).map
      (fun k => MetadataToken.new (v >>> 3) k)
  | .HasSemantics =>
    ([MetadataTokenKind.Event, .Property].get? (v &&& 1)).map
      (fun k => MetadataToken.new (v >>> 1) k)
  | .MethodDefOrRef =>
    ([MetadataTokenKind.Method, .MemberRef].get? (v &&& 1)).map
      (fun k => MetadataToken.new (v >>> 1) k)
  | .MemberForwarded =>
    ([MetadataTokenKind.Field, .Method].get? (v &&& 1)).map
      (fun k => MetadataToken.new (v >>> 1) k)
  | .Implementation =>
    ([MetadataTokenKind.File, .AssemblyRef, .ExportedType].get? (v &&& 3)).map
      (fun k => MetadataToken.new (v >>> 2) k)
  | .CustomAttributeType =>
    (match v &&& 7 with
      | 2 => some MetadataTokenKind.Method
      | 3 => some MetadataTokenKind.MemberRef
      | _ => none).map
      (fun k => MetadataToken.new (v >>> 3) k)
  | .ResolutionScope =>
    ([MetadataTokenKind.Module, .ModuleRef, .AssemblyRef, .TypeRef].get? (v &&& 3)).map
      (fun k => MetadataToken.new (v >>> 2) k)
  | .TypeOrMethodDef =>
    ([MetadataTokenKind.TypeDef, .Method].get? (v &&& 1)).map
      (fun k => MetadataToken.new (v >>> 1) k)
  | .HasCustomDebugInformation =>
    ([MetadataTokenKind.Method, .Field, .TypeRef, .TypeDef, .Param,
      .InterfaceImpl, .MemberRef, .Module, .Permission, .Property, .Event,
      .Signature, .ModuleRef, .TypeSpec, .Assembly, .File, .ExportedType,
      .ManifestResource, .GenericParam, .GenericParamConstraint, .MethodSpec,
      .Document, .LocalScope, .LocalVariable, .LocalConstant,
      .ImportScope].get? (v &&& 31)).map
      (fun k => MetadataToken.new (v >>> 5) k)

/-- `CodedIndex::encode` (indices.rs lines 403-549): index 0 encodes to 0;
otherwise the index must fit a u32 (`try_into`), is shifted left by the
kind's tag width (u32 shift, wrapping) and or-ed with the target table's
tag. Unsupported `(kind, token_kind)` pairs give `None`. The
`HasCustomAttribute` arm DOES contain `AssemblyRef`, at tag 0x0F. -/
def encode (index : Nat) (token_kind : MetadataTokenKind) (kind : CodedIndexKind) :
    Option Nat :=
  if index = 0 then some 0
  else if index < 4294967296 then
    match kind with
    | .TypeDefOrRef =>
      match token_kind with
      | .TypeDef => some (((index <<< 2) % 4294967296) ||| 0x00)
      | .TypeRef => some (((index <<< 2) % 4294967296) ||| 0x01)
      | .TypeSpec => some (((index <<< 2) % 4294967296) ||| 0x02)
      | _ => none
    | .HasConstant =>
      match token_kind with
      | .Field => some (((index <<< 2) % 4294967296) ||| 0x00)
      | .Param => some (((index <<< 2) % 4294967296) ||| 0x01)
      | .Property => some (((index <<< 2) % 4294967296) ||| 0x02)
      | _ => none
    | .HasCustomAttribute =>
      match token_kind with
      | .Method => some (((index <<< 5) % 4294967296) ||| 0x00)
      | .Field => some (((index <<< 5) % 4294967296) ||| 0x01)
      | .TypeRef => some (((index <<< 5) % 4294967296) ||| 0x02)
      | .TypeDef => some (((index <<< 5) % 4294967296) ||| 0x03)
      | .Param => some (((index <<< 5) % 4294967296) ||| 0x04)
      | .InterfaceImpl => some (((index <<< 5) % 4294967296) ||| 0x05)
      | .MemberRef => some (((index <<< 5) % 4294967296) ||| 0x06)
      | .Module => some (((index <<< 5) % 4294967296) ||| 0x07)
      | .Permission => some (((index <<< 5) % 4294967296) ||| 0x08)
      | .Property => some (((index <<< 5) % 4294967296) ||| 0x09)
      | .Event => some (((index <<< 5) % 4294967296) ||| 0x0A)
      | .Signature => some (((index <<< 5) % 4294967296) ||| 0x0B)
      | .ModuleRef => some (((index <<< 5) % 4294967296) ||| 0x0C)
      | .TypeSpec => some (((index <<< 5) % 4294967296) ||| 0x0D)
      | .Assembly => some (((index <<< 5) % 4294967296) ||| 0x0E)
      | .AssemblyRef => some (((index <<< 5) % 4294967296) ||| 0x0F)
      | .File => some (((index <<< 5) % 4294967296) ||| 0x10)
      | .ExportedType => some (((index <<< 5) % 4294967296) ||| 0x11)
      | .ManifestResource => some (((index <<< 5) % 4294967296) ||| 0x12)
      | .GenericParam => some (((index <<< 5) % 4294967296) ||| 0x13)
      | .GenericParamConstraint => some (((index <<< 5) % 4294967296) ||| 0x14)
      | .MethodSpec => some (((index <<< 5) % 4294967296) ||| 0x15)
      | _ => none
    | .HasFieldMarshal =>
      match token_kind with
      | .Field => some (((index <<< 1) % 4294967296) ||| 0x00)
      | .Param => some (((index <<< 1) % 4294967296) ||| 0x01)
      | _ => none
    | .HasDeclSecurity =>
      match token_kind with
      | .TypeDef => some (((index <<< 2) % 4294967296) ||| 0x00)
      | .Method => some (((index <<< 2) % 4294967296) ||| 0x01)
      | .Assembly => some (((index <<< 2) % 4294967296) ||| 0x02)
      | _ => none
    | .MemberRefParent =>
      match token_kind with
      | .TypeDef => some (((index <<< 3) % 4294967296) ||| 0x00)
      | .TypeRef => some (((index <<< 3) % 4294967296) ||| 0x01)
      | .ModuleRef => some (((index <<< 3) % 4294967296) ||| 0x02)
      | .Method => some (((index <<< 3) % 4294967296) ||| 0x03)
      | .TypeSpec => some (((index <<< 3) % 4294967296) ||| 0x04)
      | _ => none
    | .HasSemantics =>
      match token_kind with
      | .Event => some (((index <<< 1) % 4294967296) ||| 0x00)
      | .Property => some (((index <<< 1) % 4294967296) ||| 0x01)
      | _ => none
    | .MethodDefOrRef =>
      match token_kind with
      | .Method => some (((index <<< 1) % 4294967296) ||| 0x00)
      | .MemberRef => some (((index <<< 1) % 4294967296) ||| 0x01)
      | _ => none
    | .MemberForwarded =>
      match token_kind with
      | .Field => some (((index <<< 1) % 4294967296) ||| 0x00)
      | .Method => some (((index <<< 1) % 4294967296) ||| 0x01)
      | _ => none
    | .Implementation =>
      match token_kind with
      | .File => some (((index <<< 2) % 4294967296) ||| 0x00)
      | .AssemblyRef => some (((index <<< 2) % 4294967296) ||| 0x01)
      | .ExportedType => some (((index <<< 2) % 4294967296) ||| 0x02)
      | _ => none
    | .CustomAttributeType =>
      match token_kind with
      | .Method => some (((index <<< 3) % 4294967296) ||| 0x02)
      | .MemberRef => some (((index <<< 3) % 4294967296) ||| 0x03)
      | _ => none
    | .ResolutionScope =>
      match token_kind with
      | .Module => some (((index <<< 2) % 4294967296) ||| 0x00)
      | .ModuleRef => some (((index <<< 2) % 4294967296) ||| 0x01)
      | .AssemblyRef => some (((index <<< 2) % 4294967296) ||| 0x02)
      | .TypeRef => some (((index <<< 2) % 4294967296) ||| 0x03)
      | _ => none
    | .TypeOrMethodDef =>
      match token_kind with
      | .TypeDef => some (((index <<< 1) % 4294967296) ||| 0x00)
      | .Method => some (((index <<< 1) % 4294967296) ||| 0x01)
      | _ => none
    | .HasCustomDebugInformation =>
      match token_kind with
      | .Method => some (((index <<< 5) % 4294967296) ||| 0x00)
      | .Field => some (((index <<< 5) % 4294967296) ||| 0x01)
      | .TypeRef => some (((index <<< 5) % 4294967296) ||| 0x02)
      | .TypeDef => some (((index <<< 5) % 4294967296) ||| 0x03)
      | .Param => some (((index <<< 5) % 4294967296) ||| 0x04)
      | .InterfaceImpl => some (((index <<< 5) % 4294967296) ||| 0x05)
      | .MemberRef => some (((index <<< 5) % 4294967296) ||| 0x06)
      | .Module => some (((index <<< 5) % 4294967296) ||| 0x07)
      | .Permission => some (((index <<< 5) % 4294967296) ||| 0x08)
      | .Property => some (((index <<< 5) % 4294967296) ||| 0x09)
      | .Event => some (((index <<< 5) % 4294967296) ||| 0x0A)
      | .Signature => some (((index <<< 5) % 4294967296) ||| 0x0B)
      | .ModuleRef => some (((index <<< 5) % 4294967296) ||| 0x0C)
      | .TypeSpec => some (((index <<< 5) % 4294967296) ||| 0x0D)
      | .Assembly => some (((index <<< 5) % 4294967296) ||| 0x0E)
      | .AssemblyRef => some (((index <<< 5) % 4294967296) ||| 0x0F)
      | .File => some (((index <<< 5) % 4294967296) ||| 0x10)
      | .ExportedType => some (((index <<< 5) % 4294967296) ||| 0x11)
      | .ManifestResource => some (((index <<< 5) % 4294967296) ||| 0x12)
      | .GenericParam => some (((index <<< 5) % 4294967296) ||| 0x13)
      | .GenericParamConstraint => some (((index <<< 5) % 4294967296) ||| 0x14)
      | .MethodSpec => some (((index <<< 5) % 4294967296) ||| 0x15)
      | .Document => some (((index <<< 5) % 4294967296) ||| 0x16)
      | .LocalScope => some (((index <<< 5) % 4294967296) ||| 0x17)
      | .LocalVariable => some (((index <<< 5) % 4294967296) ||| 0x18)
      | .LocalConstant => some (((index <<< 5) % 4294967296) ||| 0x19)
      | .ImportScope => some (((index <<< 5) % 4294967296) ||| 0x1A)
      | _ => none
  else none

end CodedIndex

/-- C1: the claim states that decode is a left inverse of encode for every
table of every coded-index set, with the spec's (ECMA-335) tag
assignment, under which HasCustomAttribute tag 15 is `AssemblyRef`.
`encode` does assign `AssemblyRef` tag 0x0F, so
`encode(1, AssemblyRef, HasCustomAttribute) = 0x2F`; but `decode`'s
HasCustomAttribute array omits `AssemblyRef`, so tag 15 selects `File`
and 0x2F decodes to the File token `0x26000001` instead of the
AssemblyRef token `0x23000001`. This theorem evaluates both at that
failing input. -/
theorem decode_encode_has_custom_attribute_mismatch :
    CodedIndex.encode 1 MetadataTokenKind.AssemblyRef CodedIndexKind.HasCustomAttribute
      = some 0x2F
    ∧ CodedIndex.decode 0x2F CodedIndexKind.HasCustomAttribute
      = some ⟨0x26000001⟩ := by
  decide

/-- Helper for C10: mapping `MetadataToken.new 0` over any optional token
kind can only produce the null token. -/
theorem map_new_zero_eq {o : Option MetadataTokenKind} {t : MetadataToken}
    (h : o.map (fun k => MetadataToken.new 0 k) = some t) : t = ⟨0⟩ := by
  cases o with
  | none => simp at h
  | some k =>
    simp only [Option.map_some', Option.some.injEq, MetadataToken.new, if_pos rfl] at h
    exact h.symm

/-- C10: for every coded-index kind and every coded-index value whose row
bits (the bits above the tag) are zero, a successful decode yields the
null metadata token 0 regardless of the tag, and `is_null` holds of it. -/
theorem decode_zero_row_yields_null_token (kind : CodedIndexKind) (v : Nat)
    (t : MetadataToken) (hrow : v >>> kind.bits = 0)
    (hdec : CodedIndex.decode v kind = some t) :
    t = ⟨0⟩ ∧ t.is_null = true := by
  have ht : t = ⟨0⟩ := by
    cases kind <;>
      (simp only [CodedIndexKind.bits] at hrow
       simp only [CodedIndex.decode] at hdec
       rw [hrow] at hdec
       exact map_new_zero_eq hdec)
  exact ⟨ht, by rw [ht]; rfl⟩

/-- C10 witness: the kind `TypeDefOrRef` with the raw value 2 (tag 2 =
TypeSpec, row bits zero) decodes successfully, to the null token. -/
theorem decode_zero_row_yields_null_token_witness :
    MetadataToken.mk 0 = ⟨0⟩ ∧ (MetadataToken.mk 0).is_null = true :=
  decode_zero_row_yields_null_token CodedIndexKind.TypeDefOrRef 2 ⟨0⟩
    (by decide) (by decide)

/-!
Tables heap and index sizing, from `cli-toolkit/src/raw/metadata/heaps.rs`
(`TableHeap`) and `cli-toolkit/src/raw/metadata/indices.rs`
(`CodedIndex::get_size`).
-/

/-- `enum IndexSize` (indices.rs lines 35-39): stored index widths. -/
inductive IndexSize where
  | Slim
  | Fat
  deriving DecidableEq, Repr

/-- Discriminant values of `IndexSize` (`Slim = 0x2`, `Fat = 0x4` bytes). -/
def IndexSize.val : IndexSize → Nat
  | .Slim => 2
  | .Fat => 4

/-- `enum TableKind` (tables.rs lines 17-72). -/
inductive TableKind where
  | Module | TypeRef | TypeDef | FieldPtr | Field | MethodPtr | MethodDef
  | ParamPtr | Param | InterfaceImpl | MemberRef | Constant | CustomAttribute
  | FieldMarshal | DeclSecurity | ClassLayout | FieldLayout | StandAloneSig
  | EventMap | EventPtr | Event | PropertyMap | PropertyPtr | Property
  | MethodSemantics | MethodImpl | ModuleRef | TypeSpec | ImplMap | FieldRVA
  | EncLog | EncMap | Assembly | AssemblyProcessor | AssemblyOS | AssemblyRef
  | AssemblyRefProcessor | AssemblyRefOS | File | ExportedType
  | ManifestResource | NestedClass | GenericParam | MethodSpec
  | GenericParamConstraint
  | Document | MethodDebugInformation | LocalScope | LocalVariable
  | LocalConstant | ImportScope | StateMachineMethod | CustomDebugInformation
  deriving DecidableEq, Repr

/-- Discriminant of `TableKind` (`kind as usize` in the source). -/
def TableKind.id : TableKind → Nat
  | .Module => 0x00
  | .TypeRef => 0x01
  | .TypeDef => 0x02
  | .FieldPtr => 0x03
  | .Field => 0x04
  | .MethodPtr => 0x05
  | .MethodDef => 0x06
  | .ParamPtr => 0x07
  | .Param => 0x08
  | .InterfaceImpl => 0x09
  | .MemberRef => 0x0a
  | .Constant => 0x0b
  | .CustomAttribute => 0x0c
  | .FieldMarshal => 0x0d
  | .DeclSecurity => 0x0e
  | .ClassLayout => 0x0f
  | .FieldLayout => 0x10
  | .StandAloneSig => 0x11
  | .EventMap => 0x12
  | .EventPtr => 0x13
  | .Event => 0x14
  | .PropertyMap => 0x15
  | .PropertyPtr => 0x16
  | .Property => 0x17
  | .MethodSemantics => 0x18
  | .MethodImpl => 0x19
  | .ModuleRef => 0x1a
  | .TypeSpec => 0x1b
  | .ImplMap => 0x1c
  | .FieldRVA => 0x1d
  | .EncLog => 0x1e
  | .EncMap => 0x1f
  | .Assembly => 0x20
  | .AssemblyProcessor => 0x21
  | .AssemblyOS => 0x22
  | .AssemblyRef => 0x23
  | .AssemblyRefProcessor => 0x24
  | .AssemblyRefOS => 0x25
  | .File => 0x26
  | .ExportedType => 0x27
  | .ManifestResource => 0x28
  | .NestedClass => 0x29
  | .GenericParam => 0x2a
  | .MethodSpec => 0x2b
  | .GenericParamConstraint => 0x2c
  | .Document => 0x30
  | .MethodDebugInformation => 0x31
  | .LocalScope => 0x32
  | .LocalVariable => 0x33
  | .LocalConstant => 0x34
  | .ImportScope => 0x35
  | .StateMachineMethod => 0x36
  | .CustomDebugInformation => 0x37

/-- Iteration order of `TableKind::iter()` (strum `EnumIter`): declaration
order, which is ascending discriminant order. -/
def TableKind.iter : List TableKind :=
  [.Module, .TypeRef, .TypeDef, .FieldPtr, .Field, .MethodPtr, .MethodDef,
   .ParamPtr, .Param, .InterfaceImpl, .MemberRef, .Constant, .CustomAttribute,
   .FieldMarshal, .DeclSecurity, .ClassLayout, .FieldLayout, .StandAloneSig,
   .EventMap, .EventPtr, .Event, .PropertyMap, .PropertyPtr, .Property,
   .MethodSemantics, .MethodImpl, .ModuleRef, .TypeSpec, .ImplMap, .FieldRVA,
   .EncLog, .EncMap, .Assembly, .AssemblyProcessor, .AssemblyOS, .AssemblyRef,
   .AssemblyRefProcessor, .AssemblyRefOS, .File, .ExportedType,
   .ManifestResource, .NestedClass, .GenericParam, .MethodSpec,
   .GenericParamConstraint,
   .Document, .MethodDebugInformation, .LocalScope, .LocalVariable,
   .LocalConstant, .ImportScope, .StateMachineMethod, .CustomDebugInformation]

/-- Little-endian integer value of `count` bytes starting at offset `off`. -/
def leRead (bytes : List Nat) (off : Nat) : Nat → Nat
  | 0 => 0
  | n + 1 => ByteStream.byteAt bytes off + 256 * leRead bytes (off + 1) n

/-- `struct TableHeap` (heaps.rs lines 146-149): the `#~` stream slice. -/
structure TableHeap where
  bytes : List Nat
  deriving DecidableEq, Repr

namespace TableHeap

/-- `TableHeap::valid` (heaps.rs lines 208-212): the 64-bit valid mask,
little-endian at bytes 8..16 of the stream. -/
def valid (h : TableHeap) : Nat := leRead h.bytes 8 8

/-- `TableHeap::has_table` (heaps.rs lines 172-174): bit test of the valid
mask at the table's discriminant (every discriminant is below 64, so the
source's `BitArray::get` never returns `None` here). -/
def has_table (h : TableHeap) (kind : TableKind) : Bool :=
  (h.valid).testBit kind.id

/-- Entry `i` of `TableHeap::rows` (heaps.rs lines 224-228): the `i`-th
little-endian u32 row count, stored from byte 24 of the stream. The
source materializes the slice with unchecked pointer casts; bytes past
the end of an ill-formed stream are modelled as 0. -/
def rowsVal (h : TableHeap) (i : Nat) : Nat := leRead h.bytes (24 + 4 * i) 4

/-- `TableHeap::row_count` (heaps.rs lines 230-245): 0 when the valid bit
is clear; otherwise the stored row count at the table's dense index — the
number of valid tables strictly before it in `TableKind::iter()` order. -/
def row_count (h : TableHeap) (table : TableKind) : Nat :=
  if h.has_table table then
    h.rowsVal
      ((TableKind.iter.takeWhile (fun kind => decide (kind ≠ table))).countP
        (fun kind => h.has_table kind))
  else 0

/-- `TableHeap::idx_size` (heaps.rs lines 280-285): simple-index width for
one target table: `Slim` when its row count is at most `u16::MAX`. -/
def idx_size (h : TableHeap) (table : TableKind) : IndexSize :=
  if h.row_count table ≤ 65535 then IndexSize.Slim else IndexSize.Fat

end TableHeap

/-- Tag-width and target-table sets of `CodedIndex::get_size` (indices.rs
lines 122-211), transcribed arm by arm; unlike `decode`'s arrays, the
`HasCustomAttribute` and `HasCustomDebugInformation` sets here DO contain
`AssemblyRef`. -/
def CodedIndex.size_info : CodedIndexKind → Nat × List TableKind
  | .TypeDefOrRef => (2, [.TypeDef, .TypeRef, .TypeSpec])
  | .HasConstant => (2, [.Field, .Param, .Property])
  | .HasCustomAttribute =>
    (5, [.MethodDef, .Field, .TypeRef, .TypeDef, .Param, .InterfaceImpl,
         .MemberRef, .Module, .DeclSecurity, .Property, .Event,
         .StandAloneSig, .ModuleRef, .TypeSpec, .Assembly, .AssemblyRef,
         .File, .ExportedType, .ManifestResource, .GenericParam,
         .GenericParamConstraint, .MethodSpec])
  | .HasFieldMarshal => (1, [.Field, .Param])
  | .HasDeclSecurity => (2, [.TypeDef, .MethodDef, .Assembly])
  | .MemberRefParent => (3, [.TypeDef, .TypeRef, .ModuleRef, .MethodDef, .TypeSpec])
  | .HasSemantics => (1, [.Event, .Property])
  | .MethodDefOrRef => (1, [.MethodDef, .MemberRef])
  | .MemberForwarded => (1, [.Field, .MethodDef])
  | .Implementation => (2, [.File, .AssemblyRef, .ExportedType])
  | .CustomAttributeType => (3, [.MethodDef, .MemberRef])
  | .ResolutionScope => (2, [.Module, .ModuleRef, .AssemblyRef, .TypeRef])
  | .TypeOrMethodDef => (1, [.TypeDef, .MethodDef])
  | .HasCustomDebugInformation =>
    (5, [.MethodDef, .Field, .TypeRef, .TypeDef, .Param, .InterfaceImpl,
         .MemberRef, .Module, .DeclSecurity, .Property, .Event,
         .StandAloneSig, .ModuleRef, .TypeSpec, .Assembly, .AssemblyRef,
         .File, .ExportedType, .ManifestResource, .GenericParam,
         .GenericParamConstraint, .MethodSpec, .Document, .LocalScope,
         .LocalVariable, .LocalConstant, .ImportScope])

/-- `CodedIndex::get_size` (indices.rs lines 121-218): `Slim` when the
maximum row count over the kind's target set is below `1 << (16 - bits)`.
The source takes `.max().unwrap()` of the mapped counts; every set is
nonempty and counts are naturals, so this equals a fold of `max` from 0. -/
def CodedIndex.get_size (kind : CodedIndexKind) (tables_heap : TableHeap) : IndexSize :=
  if ((CodedIndex.size_info kind).2.map
        (fun t => tables_heap.row_count t)).foldr max 0
      < 1 <<< (16 - (CodedIndex.size_info kind).1) then
    IndexSize.Slim
  else
    IndexSize.Fat

/-- C7: for every tables stream, a simple index into table `T` is stored in
4 bytes exactly when `row_count[T] ≥ 2^16` (2 bytes otherwise), a coded
index of kind `K` is stored in 4 bytes exactly when the maximum row count
over `set(K)` is `≥ 2^(16 - bits(K))`, and `row_count` is 0 for every
table whose valid bit is clear. -/
theorem index_width_formulas (h : TableHeap) (t : TableKind) (k : CodedIndexKind) :
    ((h.idx_size t).val = if 2 ^ 16 ≤ h.row_count t then 4 else 2)
    ∧ ((CodedIndex.get_size k h).val
        = if 2 ^ (16 - (CodedIndex.size_info k).1)
              ≤ ((CodedIndex.size_info k).2.map (fun u => h.row_count u)).foldr max 0
          then 4 else 2)
    ∧ (h.has_table t = false → h.row_count t = 0) := by
  refine ⟨?_, ?_, ?_⟩
  · by_cases hc : h.row_count t ≤ 65535
    · rw [TableHeap.idx_size, if_pos hc, if_neg (by omega)]
      rfl
    · rw [TableHeap.idx_size, if_neg hc, if_pos (by omega)]
      rfl
  · by_cases hm : ((CodedIndex.size_info k).2.map (fun u => h.row_count u)).foldr max 0
        < 1 <<< (16 - (CodedIndex.size_info k).1)
    · rw [Nat.shiftLeft_eq, one_mul] at hm
      rw [CodedIndex.get_size, if_pos (by rw [Nat.shiftLeft_eq, one_mul]; omega),
        if_neg (by omega)]
      rfl
    · rw [Nat.shiftLeft_eq, one_mul] at hm
      rw [CodedIndex.get_size, if_neg (by rw [Nat.shiftLeft_eq, one_mul]; omega),
        if_pos (by omega)]
      rfl
  · intro hf
    rw [TableHeap.row_count, hf]
    rfl

/-- C7 witness: a stream with no valid tables has `row_count Module = 0`
(via the theorem's third part), a stream with a single Module table of
65535 rows stores 2-byte Module indices, and one with 65536 rows stores
4-byte Module indices. -/
theorem index_width_formulas_witness :
    TableHeap.row_count ⟨List.replicate 24 0⟩ TableKind.Module = 0
    ∧ TableHeap.idx_size
        ⟨[0, 0, 0, 0, 0, 0, 0, 0, 1, 0, 0, 0, 0, 0, 0, 0,
          0, 0, 0, 0, 0, 0, 0, 0, 0xFF, 0xFF, 0, 0]⟩ TableKind.Module
        = IndexSize.Slim
    ∧ TableHeap.idx_size
        ⟨[0, 0, 0, 0, 0, 0, 0, 0, 1, 0, 0, 0, 0, 0, 0, 0,
          0, 0, 0, 0, 0, 0, 0, 0, 0, 0, 1, 0]⟩ TableKind.Module
        = IndexSize.Fat :=
  ⟨(index_width_formulas ⟨List.replicate 24 0⟩ TableKind.Module
      CodedIndexKind.TypeDefOrRef).2.2 (by decide),
   by decide, by decide⟩

/-!
PE locator, from `cli-toolkit/src/raw/portable_executable.rs` and
`cli-toolkit/src/raw/assembly.rs`.
-/

/-- `struct SectionHeader` (portable_executable.rs lines 281-296), all
fields u32/u16 except the 8-byte packed `name`. -/
structure SectionHeader where
  name : Nat
  virtual_size : Nat
  virtual_address : Nat
  size_of_raw_data : Nat
  pointer_to_raw_data : Nat
  pointer_to_relocations : Nat
  pointer_to_line_numbers : Nat
  number_of_relocations : Nat
  number_of_line_numbers : Nat
  characteristics : Nat
  deriving DecidableEq, Repr

/-- Containment test of `resolve_rva`'s `find` closure (assembly.rs line
75): `rva >= s.virtual_address && rva < s.virtual_address +
s.size_of_raw_data`, the sum being u32 arithmetic. -/
def section_matches (rva : Nat) (s : SectionHeader) : Bool :=
  decide (s.virtual_address ≤ rva)
    && decide (rva < (s.virtual_address + s.size_of_raw_data) % 4294967296)

/-- `resolve_rva` (assembly.rs lines 72-79): linear scan for the first
section containing the RVA; `rva - virtual_address + pointer_to_raw_data`
(u32 arithmetic, cast to usize) on a hit, `OffsetOutOfBounds` otherwise. -/
def resolve_rva (rva : Nat) (sections : List SectionHeader) : Except Error Nat :=
  match sections.find? (section_matches rva) with
  | some sec =>
    Except.ok ((rva - sec.virtual_address + sec.pointer_to_raw_data) % 4294967296)
  | none => Except.error Error.OffsetOutOfBounds

/-- C8: RVA-to-file-offset resolution returns
`rva - virtual_address + pointer_to_raw_data` for the section satisfying
`virtual_address ≤ rva < virtual_address + size_of_raw_data`, and fails
with `OffsetOutOfBounds` when no section contains the RVA. The
no-overflow bounds mirror the u32 arithmetic of the source. -/
theorem resolve_rva_spec (sections : List SectionHeader) (rva : Nat)
    (hova : ∀ s ∈ sections, s.virtual_address + s.size_of_raw_data < 4294967296) :
    (∀ s, s ∈ sections →
      s.virtual_address ≤ rva →
      rva < s.virtual_address + s.size_of_raw_data →
      (∀ u ∈ sections,
        u.virtual_address ≤ rva → rva < u.virtual_address + u.size_of_raw_data → u = s) →
      rva - s.virtual_address + s.pointer_to_raw_data < 4294967296 →
      resolve_rva rva sections
        = Except.ok (rva - s.virtual_address + s.pointer_to_raw_data))
    ∧ ((∀ s ∈ sections,
        ¬ (s.virtual_address ≤ rva ∧ rva < s.virtual_address + s.size_of_raw_data)) →
      resolve_rva rva sections = Except.error Error.OffsetOutOfBounds) := by
  constructor
  · intro s hs h1 h2 huniq hres
    have hms : section_matches rva s = true := by
      simp only [section_matches, Nat.mod_eq_of_lt (hova s hs), Bool.and_eq_true,
        decide_eq_true_eq]
      exact ⟨h1, h2⟩
    cases hfind : sections.find? (section_matches rva) with
    | none =>
      rw [List.find?_eq_none] at hfind
      exact absurd hms (hfind s hs)
    | some u =>
      have humem := List.mem_of_find?_eq_some hfind
      have hmu := List.find?_some hfind
      simp only [section_matches, Nat.mod_eq_of_lt (hova u humem), Bool.and_eq_true,
        decide_eq_true_eq] at hmu
      have hus : u = s := huniq u humem hmu.1 hmu.2
      subst hus
      simp only [resolve_rva, hfind]
      rw [Nat.mod_eq_of_lt hres]
  · intro hnone
    have hfind : sections.find? (section_matches rva) = none := by
      rw [List.find?_eq_none]
      intro u humem hmu
      simp only [section_matches, Nat.mod_eq_of_lt (hova u humem), Bool.and_eq_true,
        decide_eq_true_eq] at hmu
      exact hnone u humem hmu
    simp only [resolve_rva, hfind]

/-- C8 witness, the claim's own example: a single section with
`va = 0x2000`, `raw_size = 0x400`, `raw_pointer = 0x200` maps RVA 0x2000
to 0x200 and RVA 0x23FF to 0x5FF, while RVA 0x2400 fails. -/
theorem resolve_rva_spec_witness :
    resolve_rva 0x2000 [⟨0, 0x400, 0x2000, 0x400, 0x200, 0, 0, 0, 0, 0⟩]
      = Except.ok 0x200
    ∧ resolve_rva 0x23FF [⟨0, 0x400, 0x2000, 0x400, 0x200, 0, 0, 0, 0, 0⟩]
      = Except.ok 0x5FF
    ∧ resolve_rva 0x2400 [⟨0, 0x400, 0x2000, 0x400, 0x200, 0, 0, 0, 0, 0⟩]
      = Except.error Error.OffsetOutOfBounds :=
  ⟨(resolve_rva_spec [⟨0, 0x400, 0x2000, 0x400, 0x200, 0, 0, 0, 0, 0⟩] 0x2000
      (by decide)).1 ⟨0, 0x400, 0x2000, 0x400, 0x200, 0, 0, 0, 0, 0⟩
      (by decide) (by decide) (by decide) (by decide) (by decide),
   (resolve_rva_spec [⟨0, 0x400, 0x2000, 0x400, 0x200, 0, 0, 0, 0, 0⟩] 0x23FF
      (by decide)).1 ⟨0, 0x400, 0x2000, 0x400, 0x200, 0, 0, 0, 0, 0⟩
      (by decide) (by decide) (by decide) (by decide) (by decide),
   (resolve_rva_spec [⟨0, 0x400, 0x2000, 0x400, 0x200, 0, 0, 0, 0, 0⟩] 0x2400
      (by decide)).2 (by decide)⟩

/-- `struct PeHeader` (portable_executable.rs lines 40-53): the PE
signature u32 (named `magic`, checked against 0x4550) followed by the
COFF file-header fields; `pointer_to_symbol_table` and
`number_of_symbols` are checked to be 0 and `characteristics & 0x000F`
to be 0x2. -/
structure PeHeader where
  magic : Nat
  machine : Nat
  number_of_sections : Nat
  timestamp : Nat
  pointer_to_symbol_table : Nat
  number_of_symbols : Nat
  optional_header_size : Nat
  characteristics : Nat
  deriving DecidableEq, Repr

/-- `PeHeader::from_byte_stream`, as generated by the `FromByteStream`
derive (cli-toolkit-derive/src/from_byte_stream.rs): each field read in
declaration order, `check_value` fields through `read_checked`. The
`timestamp` is an i32 read whose raw 32-bit value is kept. -/
def PeHeader.from_byte_stream (s : ByteStream) : Except Error (PeHeader × ByteStream) :=
  match s.read_checked_u32 (fun v => v == 0x4550) with
  | (Except.error e, _) => Except.error e
  | (Except.ok magic, s) =>
  match s.read_u16 with
  | (Except.error e, _) => Except.error e
  | (Except.ok machine, s) =>
  match s.read_u16 with
  | (Except.error e, _) => Except.error e
  | (Except.ok number_of_sections, s) =>
  match s.read_u32 with
  | (Except.error e, _) => Except.error e
  | (Except.ok timestamp, s) =>
  match s.read_checked_u32 (fun v => v == 0) with
  | (Except.error e, _) => Except.error e
  | (Except.ok pointer_to_symbol_table, s) =>
  match s.read_checked_u32 (fun v => v == 0) with
  | (Except.error e, _) => Except.error e
  | (Except.ok number_of_symbols, s) =>
  match s.read_u16 with
  | (Except.error e, _) => Except.error e
  | (Except.ok optional_header_size, s) =>
  match s.read_checked_u16 (fun v => (v &&& 0x000F) == 0x2) with
  | (Except.error e, _) => Except.error e
  | (Except.ok characteristics, s) =>
    Except.ok
      ({ magic := magic, machine := machine,
         number_of_sections := number_of_sections, timestamp := timestamp,
         pointer_to_symbol_table := pointer_to_symbol_table,
         number_of_symbols := number_of_symbols,
         optional_header_size := optional_header_size,
         characteristics := characteristics }, s)

/-- Opening steps of `Assembly::try_from` (assembly.rs lines 19-25): seek
to 0x3C, read the u32 `lfanew`, compute `pe_start = lfanew + 4` (u32
addition), seek there and parse the `PeHeader`. These are the steps the
claim's PE-signature validation concerns; the remainder of `try_from`
(optional header, sections, CLI header, metadata root) is reached only
after this returns `Ok`. -/
def assembly_open_pe (bytes : List Nat) : Except Error (PeHeader × ByteStream) :=
  match (ByteStream.new bytes).seek 0x3C with
  | (Except.error e, _) => Except.error e
  | (Except.ok _, reader) =>
  match reader.read_u32 with
  | (Except.error e, _) => Except.error e
  | (Except.ok lfanew, reader) =>
  match reader.seek ((lfanew + 4) % 4294967296) with
  | (Except.error e, _) => Except.error e
  | (Except.ok _, reader) => PeHeader.from_byte_stream reader

/-- Conforming 88-byte image: `lfanew = 0x40` at offset 0x3C, the PE
signature `50 45 00 00` exactly at offset 0x40, followed by a COFF file
header (machine 0x14C, 1 section, zeroed symbol fields, characteristics
0x0102) at 0x44 — the standard PE layout. -/
def conforming_pe_image : List Nat :=
  List.replicate 60 0 ++ [0x40, 0, 0, 0]
    ++ [0x50, 0x45, 0x00, 0x00]
    ++ [0x4C, 0x01] ++ [0x01, 0x00] ++ [0, 0, 0, 0] ++ [0, 0, 0, 0]
    ++ [0, 0, 0, 0] ++ [0xE0, 0x00] ++ [0x02, 0x01]

/-- Same image except the 4 bytes at `lfanew` are `50 45 01 00` (the
claim's corrupt signature) and the u32 0x4550 sits at `lfanew + 4`
instead, with the COFF fields following it. -/
def bad_signature_pe_image : List Nat :=
  List.replicate 60 0 ++ [0x40, 0, 0, 0]
    ++ [0x50, 0x45, 0x01, 0x00]
    ++ [0x50, 0x45, 0x00, 0x00]
    ++ [0x4C, 0x01] ++ [0x01, 0x00] ++ [0, 0, 0, 0] ++ [0, 0, 0, 0]
    ++ [0, 0, 0, 0] ++ [0xE0, 0x00] ++ [0x02, 0x01]

/-- C3: the claim states that opening seeks to exactly `lfanew` and
validates the PE signature there, failing with `InvalidData` iff those 4
bytes are not `50 45 00 00`. The source computes `pe_start = lfanew + 4`
(assembly.rs line 22) and then checks the u32 at THAT offset against
0x4550: the conforming image (signature exactly at `lfanew`) is rejected
with `InvalidData` — the check lands on the COFF machine/section-count
bytes — while the image whose bytes at `lfanew` are the claim's corrupt
`50 45 01 00` (but with 0x4550 at `lfanew + 4`) passes the signature
check. -/
theorem pe_signature_checked_at_lfanew_plus_four :
    (conforming_pe_image.drop 0x40).take 4 = [0x50, 0x45, 0x00, 0x00]
    ∧ assembly_open_pe conforming_pe_image = Except.error Error.InvalidData
    ∧ (bad_signature_pe_image.drop 0x40).take 4 = [0x50, 0x45, 0x01, 0x00]
    ∧ assembly_open_pe bad_signature_pe_image
        = Except.ok
            ({ magic := 0x4550, machine := 0x014C, number_of_sections := 1,
               timestamp := 0, pointer_to_symbol_table := 0,
               number_of_symbols := 0, optional_header_size := 0xE0,
               characteristics := 0x0102 }, ⟨bad_signature_pe_image, 92⟩) := by
  decide

/-!
Table dispatch, from `cli-toolkit/src/raw/metadata/heaps.rs`
(`TableHeap::get_table`, `TableHeap::row_size`, the heap `idx_size`
implementations) and the per-table row sizes of
`cli-toolkit/src/raw/metadata/tables.rs` (generated by the
`MetadataTable` derive in cli-toolkit-derive/src/metadata_table.rs:
a row's size is the sum of its field widths in declaration order —
`size_of` for plain fields, the heap's `idx_size` for `heap_index`
fields, `TableHeap::idx_size` for `table_index` fields and
`CodedIndex::get_size` for `coded_index` fields).
-/

/-- `StringHeap::idx_size` (heaps.rs lines 21-26): bit 0 of the
`heap_sizes` byte (byte 6 of the `#~` stream). -/
def StringHeap.idx_size (tables : TableHeap) : IndexSize :=
  if ByteStream.byteAt tables.bytes 6 &&& 0x1 ≠ 0 then IndexSize.Fat else IndexSize.Slim

/-- `GuidHeap::idx_size` (heaps.rs lines 55-60): bit 1 of `heap_sizes`. -/
def GuidHeap.idx_size (tables : TableHeap) : IndexSize :=
  if ByteStream.byteAt tables.bytes 6 &&& 0x2 ≠ 0 then IndexSize.Fat else IndexSize.Slim

/-- `BlobHeap::idx_size` (heaps.rs lines 85-90): bit 2 of `heap_sizes`. -/
def BlobHeap.idx_size (tables : TableHeap) : IndexSize :=
  if ByteStream.byteAt tables.bytes 6 &&& 0x4 ≠ 0 then IndexSize.Fat else IndexSize.Slim

/-- `ModuleTable::calc_row_size` (derived from tables.rs lines 95-106):
`generation: u16`, a string index, three GUID indices. -/
def ModuleTable.calc_row_size (tables : TableHeap) : Nat :=
  2 + (StringHeap.idx_size tables).val + (GuidHeap.idx_size tables).val
    + (GuidHeap.idx_size tables).val + (GuidHeap.idx_size tables).val

/-- `TypeRefTable::calc_row_size` (tables.rs lines 108-116): the
`resolution_scope` field is annotated `#[coded_index(TypeOrMethodDef)]`
in the source (not ResolutionScope), and the width follows that
annotation; then two string indices. -/
def TypeRefTable.calc_row_size (tables : TableHeap) : Nat :=
  (CodedIndex.get_size CodedIndexKind.TypeOrMethodDef tables).val
    + (StringHeap.idx_size tables).val + (StringHeap.idx_size tables).val

/-- `TypeDefTable::calc_row_size` (tables.rs lines 118-131): `flags: u32`,
two string indices, a TypeDefOrRef coded index, Field and MethodDef
simple indices. -/
def TypeDefTable.calc_row_size (tables : TableHeap) : Nat :=
  4 + (StringHeap.idx_size tables).val + (StringHeap.idx_size tables).val
    + (CodedIndex.get_size CodedIndexKind.TypeDefOrRef tables).val
    + (tables.idx_size TableKind.Field).val
    + (tables.idx_size TableKind.MethodDef).val

/-- `FieldTable::calc_row_size` (tables.rs lines 183-190): `flags: u16`, a
string index, a blob index. -/
def FieldTable.calc_row_size (tables : TableHeap) : Nat :=
  2 + (StringHeap.idx_size tables).val + (BlobHeap.idx_size tables).val

/-- `MethodDefTable::calc_row_size` (tables.rs lines 214-225): `rva: u32`,
two u16 flag fields, a string index, a blob index, a Param simple index. -/
def MethodDefTable.calc_row_size (tables : TableHeap) : Nat :=
  4 + 2 + 2 + (StringHeap.idx_size tables).val + (BlobHeap.idx_size tables).val
    + (tables.idx_size TableKind.Param).val

/-- `ParamTable::calc_row_size` (tables.rs lines 266-272): two u16 fields
and a string index. -/
def ParamTable.calc_row_size (tables : TableHeap) : Nat :=
  2 + 2 + (StringHeap.idx_size tables).val

/-- `InterfaceImplTable::calc_row_size` (tables.rs lines 284-290): the
`type_` field is annotated `#[table_index(TypeRef)]` in the source, and a
TypeDefOrRef coded index follows. -/
def InterfaceImplTable.calc_row_size (tables : TableHeap) : Nat :=
  (tables.idx_size TableKind.TypeRef).val
    + (CodedIndex.get_size CodedIndexKind.TypeDefOrRef tables).val

/-- `MemberRefTable::calc_row_size` (tables.rs lines 292-300). -/
def MemberRefTable.calc_row_size (tables : TableHeap) : Nat :=
  (CodedIndex.get_size CodedIndexKind.MemberRefParent tables).val
    + (StringHeap.idx_size tables).val + (BlobHeap.idx_size tables).val

/-- `CustomAttributeTable::calc_row_size` (tables.rs lines 302-310). -/
def CustomAttributeTable.calc_row_size (tables : TableHeap) : Nat :=
  (CodedIndex.get_size CodedIndexKind.HasCustomAttribute tables).val
    + (CodedIndex.get_size CodedIndexKind.CustomAttributeType tables).val
    + (BlobHeap.idx_size tables).val

/-- `ConstantTable::calc_row_size` (tables.rs lines 312-320): a one-byte
`ElementType`, one padding byte, a HasConstant coded index, a blob
index. -/
def ConstantTable.calc_row_size (tables : TableHeap) : Nat :=
  1 + 1 + (CodedIndex.get_size CodedIndexKind.HasConstant tables).val
    + (BlobHeap.idx_size tables).val

/-- `ClassLayoutTable::calc_row_size` (tables.rs lines 363-369). -/
def ClassLayoutTable.calc_row_size (tables : TableHeap) : Nat :=
  2 + 4 + (tables.idx_size TableKind.TypeDef).val

/-- `PropertyMapTable::calc_row_size` (tables.rs lines 371-377). -/
def PropertyMapTable.calc_row_size (tables : TableHeap) : Nat :=
  (tables.idx_size TableKind.TypeDef).val + (tables.idx_size TableKind.Property).val

/-- `PropertyTable::calc_row_size` (tables.rs lines 379-386). -/
def PropertyTable.calc_row_size (tables : TableHeap) : Nat :=
  2 + (StringHeap.idx_size tables).val + (BlobHeap.idx_size tables).val

/-- `MethodSemanticsTable::calc_row_size` (tables.rs lines 396-403). -/
def MethodSemanticsTable.calc_row_size (tables : TableHeap) : Nat :=
  2 + (tables.idx_size TableKind.MethodDef).val
    + (CodedIndex.get_size CodedIndexKind.HasSemantics tables).val

/-- `TypeSpecTable::calc_row_size` (tables.rs lines 415-419). -/
def TypeSpecTable.calc_row_size (tables : TableHeap) : Nat :=
  (BlobHeap.idx_size tables).val

/-- `FieldMarshalTable::calc_row_size` (tables.rs lines 421-427). -/
def FieldMarshalTable.calc_row_size (tables : TableHeap) : Nat :=
  (CodedIndex.get_size CodedIndexKind.HasFieldMarshal tables).val
    + (BlobHeap.idx_size tables).val

/-- `MethodImplTable::calc_row_size` (tables.rs lines 429-437). -/
def MethodImplTable.calc_row_size (tables : TableHeap) : Nat :=
  (tables.idx_size TableKind.TypeDef).val
    + (CodedIndex.get_size CodedIndexKind.MethodDefOrRef tables).val
    + (CodedIndex.get_size CodedIndexKind.MethodDefOrRef tables).val

/-- `ModuleRefTable::calc_row_size` (tables.rs lines 439-443). -/
def ModuleRefTable.calc_row_size (tables : TableHeap) : Nat :=
  (StringHeap.idx_size tables).val

/-- `ImplMapTable::calc_row_size` (tables.rs lines 445-454). -/
def ImplMapTable.calc_row_size (tables : TableHeap) : Nat :=
  2 + (CodedIndex.get_size CodedIndexKind.MemberForwarded tables).val
    + (StringHeap.idx_size tables).val + (tables.idx_size TableKind.ModuleRef).val

/-- `DeclSecurityTable::calc_row_size` (tables.rs lines 461-468). -/
def DeclSecurityTable.calc_row_size (tables : TableHeap) : Nat :=
  2 + (CodedIndex.get_size CodedIndexKind.HasDeclSecurity tables).val
    + (BlobHeap.idx_size tables).val

/-- `FieldRVATable::calc_row_size` (tables.rs lines 470-475). -/
def FieldRVATable.calc_row_size (tables : TableHeap) : Nat :=
  4 + (tables.idx_size TableKind.Field).val

/-- `FieldLayoutTable::calc_row_size` (tables.rs lines 477-482). -/
def FieldLayoutTable.calc_row_size (tables : TableHeap) : Nat :=
  4 + (tables.idx_size TableKind.Field).val

/-- `EventMapTable::calc_row_size` (tables.rs lines 484-490). -/
def EventMapTable.calc_row_size (tables : TableHeap) : Nat :=
  (tables.idx_size TableKind.TypeDef).val + (tables.idx_size TableKind.Event).val

/-- `EventTable::calc_row_size` (tables.rs lines 492-499). -/
def EventTable.calc_row_size (tables : TableHeap) : Nat :=
  2 + (StringHeap.idx_size tables).val
    + (CodedIndex.get_size CodedIndexKind.TypeDefOrRef tables).val

/-- `AssemblyTable::calc_row_size`, hand-written in the source (tables.rs
lines 576-580): `16 + blob + 2 * string`. -/
def AssemblyTable.calc_row_size (tables : TableHeap) : Nat :=
  16 + (BlobHeap.idx_size tables).val + (StringHeap.idx_size tables).val * 2

/-- `AssemblyRefTable::calc_row_size` (derived from tables.rs lines
631-646): four u16 version fields, `flags: u32`, blob, string, string,
blob. -/
def AssemblyRefTable.calc_row_size (tables : TableHeap) : Nat :=
  2 + 2 + 2 + 2 + 4 + (BlobHeap.idx_size tables).val
    + (StringHeap.idx_size tables).val + (StringHeap.idx_size tables).val
    + (BlobHeap.idx_size tables).val

/-- `StandAloneSignatureTable::calc_row_size`, hand-written in the source
(tables.rs lines 684-686): one blob index. -/
def StandAloneSignatureTable.calc_row_size (tables : TableHeap) : Nat :=
  (BlobHeap.idx_size tables).val

/-- Whether `TableHeap::row_size` has an arm for the kind — i.e. whether
the decoder registers a schema for it; the 27 listed kinds mirror the
match in heaps.rs lines 247-278, everything else falls to the
`unimplemented!` arm. -/
def TableKind.has_registered_schema : TableKind → Bool
  | .Param | .Field | .Event | .Module | .TypeRef | .TypeDef | .ImplMap
  | .TypeSpec | .Property | .Assembly | .FieldRVA | .Constant | .EventMap
  | .MemberRef | .MethodDef | .ModuleRef | .MethodImpl | .FieldLayout
  | .ClassLayout | .PropertyMap | .AssemblyRef | .FieldMarshal
  | .DeclSecurity | .InterfaceImpl | .MethodSemantics | .CustomAttribute
  | .StandAloneSig => true
  | _ => false

/-- `TableHeap::row_size` (heaps.rs lines 247-278): dispatch to the
matching table's `calc_row_size`; the wildcard arm is
`unimplemented!(..)`, a panic, modelled by `none`. -/
def TableHeap.row_size (h : TableHeap) (table : TableKind) : Option Nat :=
  match table with
  | .Param => some (ParamTable.calc_row_size h)
  | .Field => some (FieldTable.calc_row_size h)
  | .Event => some (EventTable.calc_row_size h)
  | .Module => some (ModuleTable.calc_row_size h)
  | .TypeRef => some (TypeRefTable.calc_row_size h)
  | .TypeDef => some (TypeDefTable.calc_row_size h)
  | .ImplMap => some (ImplMapTable.calc_row_size h)
  | .TypeSpec => some (TypeSpecTable.calc_row_size h)
  | .Property => some (PropertyTable.calc_row_size h)
  | .Assembly => some (AssemblyTable.calc_row_size h)
  | .FieldRVA => some (FieldRVATable.calc_row_size h)
  | .Constant => some (ConstantTable.calc_row_size h)
  | .EventMap => some (EventMapTable.calc_row_size h)
  | .MemberRef => some (MemberRefTable.calc_row_size h)
  | .MethodDef => some (MethodDefTable.calc_row_size h)
  | .ModuleRef => some (ModuleRefTable.calc_row_size h)
  | .MethodImpl => some (MethodImplTable.calc_row_size h)
  | .FieldLayout => some (FieldLayoutTable.calc_row_size h)
  | .ClassLayout => some (ClassLayoutTable.calc_row_size h)
  | .PropertyMap => some (PropertyMapTable.calc_row_size h)
  | .AssemblyRef => some (AssemblyRefTable.calc_row_size h)
  | .FieldMarshal => some (FieldMarshalTable.calc_row_size h)
  | .DeclSecurity => some (DeclSecurityTable.calc_row_size h)
  | .InterfaceImpl => some (InterfaceImplTable.calc_row_size h)
  | .MethodSemantics => some (MethodSemanticsTable.calc_row_size h)
  | .CustomAttribute => some (CustomAttributeTable.calc_row_size h)
  | .StandAloneSig => some (StandAloneSignatureTable.calc_row_size h)
  | _ => none

/-- `TableHeap::table_count` (heaps.rs lines 220-222): the population
count of the full 64-bit valid mask. -/
def TableHeap.table_count (h : TableHeap) : Nat :=
  (List.range 64).countP (fun i => h.valid.testBit i)

/-- Loop of `TableHeap::get_table` (heaps.rs lines 188-199) over the
`indices.zip(tables)` pairs of dense index and present table kind: each
iteration looks up the row count and the row size — `row_size` panics
(`none`) on an unregistered kind BEFORE the target test — then either
returns the target's slice or skips past the table. The typed `T::new`
constructors of the source only capture precomputed sizes and cannot
fail, so the table's byte slice stands for the constructed value. -/
def TableHeap.get_table_loop (h : TableHeap) (target : TableKind) :
    ByteStream → List (Nat × TableKind) → Option (Except Error (Option (List Nat)))
  | _, [] => some (Except.ok none)
  | reader, (index, table) :: rest =>
    let rows := h.rowsVal index
    match h.row_size table with
    | none => none
    | some rs =>
      let table_size := rows * rs
      if table = target then
        match reader.read_slice_u8 table_size with
        | (Except.error e, _) => some (Except.error e)
        | (Except.ok bytes, _) => some (Except.ok (some bytes))
      else
        match reader.skip table_size with
        | (Except.error e, _) => some (Except.error e)
        | (Except.ok _, reader') => TableHeap.get_table_loop h target reader' rest

/-- `TableHeap::get_table` (heaps.rs lines 176-202): `Ok(None)` when the
target's valid bit is clear; otherwise skip the stream header and
row-count vector (the `?` on `skip` surfaces stream errors), then run the
layout loop over the present tables in ascending id order. -/
def TableHeap.get_table (h : TableHeap) (target : TableKind) :
    Option (Except Error (Option (List Nat))) :=
  if h.has_table target = false then some (Except.ok none)
  else
    match (ByteStream.new h.bytes).skip (24 + 4 * h.table_count) with
    | (Except.error e, _) => some (Except.error e)
    | (Except.ok _, reader) =>
      TableHeap.get_table_loop h target reader
        ((List.range h.table_count).zip (TableKind.iter.filter (fun k => h.has_table k)))

/-- C9: the claim states that no decode entry point panics — in particular
that string-heap lookup at or past the heap's end yields `InvalidData`,
and that requesting a table from an image whose valid mask includes a
kind with no registered schema yields an error. Both fail. On the
one-byte heap `[0x41]`, `get_string` at index 2 aborts (the range-from
slice panics, modelled by `none`) and at index 1 (the heap's end) returns
the empty string — neither is an `InvalidData` error. On a `#~` stream
whose valid mask is `{FieldPtr, Field}` (mask 0x18, one row each),
`get_table(Field)` aborts: the layout loop calls `row_size(FieldPtr)`,
whose arm is `unimplemented!`, before reaching the Field table. -/
theorem get_string_and_get_table_abort :
    StringHeap.get_string [0x41] 2 = none
    ∧ StringHeap.get_string [0x41] 1 = some []
    ∧ TableHeap.get_table
        ⟨[0, 0, 0, 0, 2, 0, 0, 0, 0x18, 0, 0, 0, 0, 0, 0, 0,
          0, 0, 0, 0, 0, 0, 0, 0, 1, 0, 0, 0, 1, 0, 0, 0]⟩ TableKind.Field
      = none := by
  decide

/-- C9 (amended): decode entry points are not uniformly abort-free.
String-heap lookup never yields an error value: `get_string` is
infallible; with an index at most the heap's length it returns the bytes
from that index up to the next NUL (the empty string at the heap's end),
and with an index strictly past the end it panics (aborts) instead of
reporting `InvalidData`. Requesting a table from an image whose valid
mask includes a table kind with no registered schema likewise does not
yield an error: `row_size` panics via `unimplemented!` exactly on the
kinds outside its 27 registered arms, and `get_table`'s layout loop
aborts the moment it reaches such a kind among the present tables. -/
theorem string_lookup_and_unregistered_table_abort :
    (∀ (heapBytes : List Nat) (index : Nat),
      (index ≤ heapBytes.length →
        StringHeap.get_string heapBytes index
          = some ((heapBytes.drop index).takeWhile (fun c => decide (c ≠ 0))))
      ∧ (heapBytes.length < index → StringHeap.get_string heapBytes index = none))
    ∧ (∀ (h : TableHeap) (t : TableKind),
      h.row_size t = none ↔ t.has_registered_schema = false)
    ∧ (∀ (h : TableHeap) (target : TableKind) (reader : ByteStream) (index : Nat)
        (u : TableKind) (rest : List (Nat × TableKind)),
      h.row_size u = none →
      TableHeap.get_table_loop h target reader ((index, u) :: rest) = none) := by
  refine ⟨fun heapBytes index => ⟨?_, ?_⟩, fun h t => ?_, fun h target reader index u rest hu => ?_⟩
  · intro hle
    simp [StringHeap.get_string, hle]
  · intro hlt
    simp [StringHeap.get_string, Nat.not_le.mpr hlt]
  · cases t <;> simp [TableHeap.row_size, TableKind.has_registered_schema]
  · simp [TableHeap.get_table_loop, hu]

/-- C9 amended-claim witness: on the heap `[0x41]`, index 1 yields the
empty string and index 2 aborts; on the `{FieldPtr, Field}` stream of the
counterexample, `row_size FieldPtr` is the panic arm (`FieldPtr` has no
registered schema) and the layout loop aborts on it. -/
theorem string_lookup_and_unregistered_table_abort_witness :
    StringHeap.get_string [0x41] 1 = some []
    ∧ StringHeap.get_string [0x41] 2 = none
    ∧ (TableHeap.row_size
        ⟨[0, 0, 0, 0, 2, 0, 0, 0, 0x18, 0, 0, 0, 0, 0, 0, 0,
          0, 0, 0, 0, 0, 0, 0, 0, 1, 0, 0, 0, 1, 0, 0, 0]⟩ TableKind.FieldPtr = none
      ↔ TableKind.FieldPtr.has_registered_schema = false)
    ∧ TableHeap.get_table_loop
        ⟨[0, 0, 0, 0, 2, 0, 0, 0, 0x18, 0, 0, 0, 0, 0, 0, 0,
          0, 0, 0, 0, 0, 0, 0, 0, 1, 0, 0, 0, 1, 0, 0, 0]⟩ TableKind.Field
        ⟨[0, 0, 0, 0, 2, 0, 0, 0, 0x18, 0, 0, 0, 0, 0, 0, 0,
          0, 0, 0, 0, 0, 0, 0, 0, 1, 0, 0, 0, 1, 0, 0, 0], 32⟩
        [(0, TableKind.FieldPtr), (1, TableKind.Field)]
      = none :=
  ⟨(string_lookup_and_unregistered_table_abort.1 [0x41] 1).1 (by decide),
   (string_lookup_and_unregistered_table_abort.1 [0x41] 2).2 (by decide),
   string_lookup_and_unregistered_table_abort.2.1
     ⟨[0, 0, 0, 0, 2, 0, 0, 0, 0x18, 0, 0, 0, 0, 0, 0, 0,
       0, 0, 0, 0, 0, 0, 0, 0, 1, 0, 0, 0, 1, 0, 0, 0]⟩ TableKind.FieldPtr,
   string_lookup_and_unregistered_table_abort.2.2
     ⟨[0, 0, 0, 0, 2, 0, 0, 0, 0x18, 0, 0, 0, 0, 0, 0, 0,
       0, 0, 0, 0, 0, 0, 0, 0, 1, 0, 0, 0, 1, 0, 0, 0]⟩ TableKind.Field
     ⟨[0, 0, 0, 0, 2, 0, 0, 0, 0x18, 0, 0, 0, 0, 0, 0, 0,
       0, 0, 0, 0, 0, 0, 0, 0, 1, 0, 0, 0, 1, 0, 0, 0], 32⟩
     0 TableKind.FieldPtr [(1, TableKind.Field)] (by decide)⟩
